import Mathlib

/-!
# Verification of the Helios-Intercropping core

A shallow embedding, in Lean 4, of the core components of the
Helios-Intercropping repository:

* `generate_intercrop_positions` (src/intercropping/geometry/plants.py),
* `calculate_nadir_camera_height` (src/intercropping/geometry/camera.py),
* `apply_species_labels` (src/intercropping/segmentation/labels.py),
* `apply_radiative_properties` (src/intercropping/radiation/properties.py),
* `create_soil_plane` (src/intercropping/geometry/soil.py),
* the post-scene-build portion of `main` (scripts/generate_scene.py),

together with theorems settling the stated specification properties.

Modelling conventions:

* Python floats are modelled as rationals (`ℚ`); real-valued trigonometry
  (camera geometry) is modelled over `ℝ`.
* Python `int(x)` (truncation toward zero) is modelled by `pyInt`.
* The global numpy PRNG is modelled as an explicit `Rng` state threaded
  through the computation.  `np.random.seed(seed)` replaces the ambient
  state by a state derived from the seed alone; `np.random.shuffle` is a
  seeded Fisher–Yates-equivalent extraction shuffle and
  `np.random.uniform` a draw from the deterministic stream.  The concrete
  bit-stream of numpy's MT19937 is outside the embedding; every theorem
  below either holds for an arbitrary stream or (for concrete
  counterexamples) is robust to the values drawn, as noted in place.
* Calls into the external Helios engine (scene store, radiation engine,
  renderer, ephemeris) are modelled at their interface boundary: fallible
  external steps are `Except` values supplied by an environment record,
  and the orchestrator's control flow (its `try`/`except` placement) is
  translated from `scripts/generate_scene.py`.
-/

/-- Python `int()` applied to a rational: truncation toward zero. -/
def pyInt (q : ℚ) : ℤ :=
  if 0 ≤ q then ⌊q⌋ else -⌊-q⌋

/-- The two crop species of the generator (`'bean'` / `'wheat'` strings in
the source). -/
inductive Species where
  | bean : Species
  | wheat : Species
deriving DecidableEq, Repr

/-- State of the (global) numpy pseudo-random generator, modelled as a
deterministic stream.  The source seeds it with `np.random.seed(seed)`. -/
structure Rng where
  s : ℕ
deriving DecidableEq, Repr

/-- `np.random.seed(seed)`: the global generator state is replaced by a
state computed from the seed alone. -/
def mkRng (seed : ℕ) : Rng := ⟨seed⟩

/-- One draw from the modelled PRNG stream (a 64-bit LCG stands in for the
MT19937 bit-stream; no theorem below depends on the particular values). -/
def rngNext (r : Rng) : ℕ × Rng :=
  let s := (6364136223846793005 * r.s + 1442695040888963407) % 18446744073709551616
  (s, ⟨s⟩)

/-- A draw of an index below `n` (used by the shuffle). -/
def randBelow (r : Rng) (n : ℕ) : ℕ × Rng :=
  let (v, r') := rngNext r
  (v % n, r')

/-- `np.random.uniform(lo, hi)`: a value in `[lo, hi)` from the stream. -/
def npUniform (r : Rng) (lo hi : ℚ) : ℚ × Rng :=
  let (v, r') := rngNext r
  (lo + (hi - lo) * (v : ℚ) / 18446744073709551616, r')

/-- Fisher–Yates-equivalent extraction shuffle, fuelled by the length so
that it is structurally recursive (and hence kernel-evaluable). -/
def shuffleGo : ℕ → List α → Rng → List α × Rng
  | 0, _, r => ([], r)
  | _ + 1, [], r => ([], r)
  | fuel + 1, x :: xs, r =>
      let (k, r1) := randBelow r (x :: xs).length
      let y := (x :: xs).getD k x
      let rest := (x :: xs).take k ++ (x :: xs).drop (k + 1)
      let (tail, r2) := shuffleGo fuel rest r1
      (y :: tail, r2)

/-- `np.random.shuffle`: permute a list under the seeded PRNG. -/
def npShuffle (xs : List α) (r : Rng) : List α × Rng :=
  shuffleGo xs.length xs r

/-- `np.linspace(start, stop, num)` with endpoint inclusion, as used for
the row y-positions. -/
def linspace (start stop : ℚ) (num : ℕ) : List ℚ :=
  if num = 0 then []
  else if num = 1 then [start]
  else (List.range num).map (fun (i : ℕ) => start + (stop - start) * (i : ℚ) / ((num : ℚ) - 1))

section ShuffleLemmas

/-- Extracting the element at index `k < l.length` and consing it onto the
remainder is a permutation of `l`. -/
theorem cons_extract_perm (l : List α) (k : ℕ) (d : α) (hk : k < l.length) :
    (l.getD k d :: (l.take k ++ l.drop (k + 1))).Perm l := by
  have hsplit : l.take k ++ l.drop k = l := l.take_append_drop k
  have hdrop : l.drop k = l[k] :: l.drop (k + 1) := List.drop_eq_getElem_cons hk
  have hget : l.getD k d = l[k] := by
    simp [List.getD_eq_getElem?_getD, List.getElem?_eq_getElem hk]
  have heq : l.take k ++ l.getD k d :: l.drop (k + 1) = l := by
    rw [hget]
    conv_rhs => rw [← hsplit, hdrop]
  have hperm : (l.getD k d :: (l.take k ++ l.drop (k + 1))).Perm
      (l.take k ++ l.getD k d :: l.drop (k + 1)) := List.perm_middle.symm
  rw [heq] at hperm
  exact hperm

/-- The shuffle returns a permutation of its input whenever the fuel
suffices. -/
theorem shuffleGo_perm :
    ∀ (fuel : ℕ) (xs : List α) (r : Rng), xs.length ≤ fuel →
      ((shuffleGo fuel xs r).1).Perm xs := by
  intro fuel
  induction fuel with
  | zero =>
      intro xs r h
      have : xs = [] := List.eq_nil_of_length_eq_zero (Nat.le_zero.mp h)
      subst this
      simp [shuffleGo]
  | succ n ih =>
      intro xs r h
      match xs with
      | [] => simp [shuffleGo]
      | x :: xs =>
          simp only [shuffleGo]
          set k := (randBelow r (x :: xs).length).1 with hk
          have hklt : k < (x :: xs).length := by
            have : (x :: xs).length ≠ 0 := by simp
            simpa [hk, randBelow, rngNext] using
              Nat.mod_lt _ (Nat.pos_of_ne_zero this)
          have hrest :
              ((x :: xs).take k ++ (x :: xs).drop (k + 1)).length = xs.length := by
            simp only [List.length_append, List.length_take, List.length_drop]
            simp only [List.length_cons] at hklt ⊢
            omega
          have hrec :=
            ih ((x :: xs).take k ++ (x :: xs).drop (k + 1))
              (randBelow r (x :: xs).length).2 (by rw [hrest]; exact Nat.le_of_succ_le_succ h)
          refine List.Perm.trans (List.Perm.cons _ hrec) ?_
          exact cons_extract_perm (x :: xs) k x hklt

/-- `npShuffle` permutes its input. -/
theorem npShuffle_perm (xs : List α) (r : Rng) : ((npShuffle xs r).1).Perm xs :=
  shuffleGo_perm xs.length xs r le_rfl

end ShuffleLemmas

/-- One emitted layout entry: `(species, x, y)`. -/
abbrev Position := Species × ℚ × ℚ

/-- The inner loop `for i in range(n_plants_this_row)` of
`generate_intercrop_positions` (plants.py lines 94-109): for each slot of
the current row, break if `plant_idx >= total_plants`, else read the
species at `plant_idx` in the shuffled list, draw the two jitters, clip
the coordinates (`np.clip(x, a, b) = min (max x a) b`) and emit.  Returns
the emitted entries of this row, the updated `plant_idx`, and the PRNG
state. -/
def rowLoop (plot_width plot_length base_spacing row_y : ℚ)
    (plant_types : List Species) (total_plants : ℤ) :
    ℕ → ℕ → ℕ → Rng → List Position × ℕ × Rng
  | 0, _, plant_idx, r => ([], plant_idx, r)
  | iters + 1, i, plant_idx, r =>
      if (plant_idx : ℤ) ≥ total_plants then ([], plant_idx, r)
      else
        let species := plant_types.getD plant_idx Species.bean
        let (jx, r1) := npUniform r (-(1/50)) (1/50)
        let (jy, r2) := npUniform r1 (-(3/200)) (3/200)
        let x0 := base_spacing * ((i : ℚ) + 1) + jx
        let y0 := row_y + jy
        let x := min (max x0 (1/20)) (plot_width - 1/20)
        let y := min (max y0 (1/20)) (plot_length - 1/20)
        let (rest, idx', r3) :=
          rowLoop plot_width plot_length base_spacing row_y plant_types total_plants
            iters (i + 1) (plant_idx + 1) r2
        ((species, x, y) :: rest, idx', r3)

/-- The outer loop `for row_idx, row_y in enumerate(row_y_positions)`
(plants.py lines 88-109): compute the row's plant count
`plants_per_row + (1 if row_idx < remainder else 0)`, and when positive
run the inner loop with `base_spacing = plot_width / (n + 1)`.  Returns
the per-row emitted lists (the source appends them to one flat list, i.e.
their concatenation), the final `plant_idx`, and the PRNG state. -/
def rowsLoop (plot_width plot_length : ℚ) (plant_types : List Species)
    (total_plants plants_per_row remainder : ℤ) :
    List ℚ → ℕ → ℕ → Rng → List (List Position) × ℕ × Rng
  | [], _, plant_idx, r => ([], plant_idx, r)
  | row_y :: rest_ys, row_idx, plant_idx, r =>
      let n : ℤ := plants_per_row + (if (row_idx : ℤ) < remainder then 1 else 0)
      let (row, idx', r') :=
        if n > 0 then
          let base_spacing := plot_width / ((n : ℚ) + 1)
          rowLoop plot_width plot_length base_spacing row_y plant_types total_plants
            n.toNat 0 plant_idx r
        else ([], plant_idx, r)
      let (rows, idx'', r'') :=
        rowsLoop plot_width plot_length plant_types total_plants plants_per_row remainder
          rest_ys (row_idx + 1) idx' r'
      (row :: rows, idx'', r'')

/-- Emerged bean count as the source computes it (plants.py lines 62-64):
`int(int(bean_density * plot_area) * bean_emергence)` — two truncations,
seeds sown first, then emerged plants. -/
def beanEmerged (plot_width plot_length bean_density bean_emergence : ℚ) : ℤ :=
  pyInt ((pyInt (bean_density * (plot_width * plot_length)) : ℚ) * bean_emergence)

/-- Emerged wheat count as the source computes it (plants.py lines 63-65). -/
def wheatEmerged (plot_width plot_length wheat_density wheat_emergence : ℚ) : ℤ :=
  pyInt ((pyInt (wheat_density * (plot_width * plot_length)) : ℚ) * wheat_emergence)

/-- `generate_intercrop_positions` (plants.py lines 21-117), with the
output kept grouped by row (the flat source list is the concatenation).

The ambient argument `g` is the global numpy PRNG state before the call;
the function's first act, `np.random.seed(seed)`, replaces it.

`n_rows` is a Python int.  For `n_rows ≤ 0` the source raises
(`ValueError` from `np.linspace` for negatives, `ZeroDivisionError` at
`total_plants // n_rows` for zero), modelled as `none`. -/
def generate_intercrop_rows (g : Rng) (plot_width plot_length : ℚ) (n_rows : ℤ)
    (row_spacing bean_density wheat_density bean_emergence wheat_emergence : ℚ)
    (seed : ℕ) : Option (List (List Position)) :=
  if n_rows ≤ 0 then none
  else
    let _ := g
    let r0 := mkRng seed
    let bean_em := beanEmerged plot_width plot_length bean_density bean_emergence
    let wheat_em := wheatEmerged plot_width plot_length wheat_density wheat_emergence
    let total_plants : ℤ := bean_em + wheat_em
    let plant_types₀ :=
      List.replicate bean_em.toNat Species.bean ++
        List.replicate wheat_em.toNat Species.wheat
    let (plant_types, r1) := npShuffle plant_types₀ r0
    let row_y_positions := linspace row_spacing (plot_length - row_spacing) n_rows.toNat
    let plants_per_row := Int.fdiv total_plants n_rows
    let remainder := Int.fmod total_plants n_rows
    some (rowsLoop plot_width plot_length plant_types total_plants plants_per_row
      remainder row_y_positions 0 0 r1).1

/-- `generate_intercrop_positions`: the flat list the source returns. -/
def generate_intercrop_positions (g : Rng) (plot_width plot_length : ℚ) (n_rows : ℤ)
    (row_spacing bean_density wheat_density bean_emergence wheat_emergence : ℚ)
    (seed : ℕ) : Option (List Position) :=
  (generate_intercrop_rows g plot_width plot_length n_rows row_spacing bean_density
    wheat_density bean_emergence wheat_emergence seed).map List.flatten

/-- Per-species emitted counts and total length of a layout, the
quantities of the count laws. -/
def speciesCounts (ps : List Position) : ℕ × ℕ × ℕ :=
  (ps.countP (fun p => p.1 = Species.bean),
   ps.countP (fun p => p.1 = Species.wheat),
   ps.length)

section GeneratorLemmas

/-- The inner row loop consumes exactly the next `min fuel (remaining)`
entries of the shuffled species list: the emitted species are the slice of
`plant_types` starting at `plant_idx`, and the returned index advances by
the number of emitted entries. -/
theorem rowLoop_spec (pw pl bs ry : ℚ) (types : List Species) (total : ℤ)
    (hlen : types.length = total.toNat) (htot : 0 ≤ total) :
    ∀ (fuel i idx : ℕ) (r : Rng),
      ((rowLoop pw pl bs ry types total fuel i idx r).1.map Prod.fst
          = (types.drop idx).take fuel)
        ∧ (rowLoop pw pl bs ry types total fuel i idx r).2.1
            = idx + (rowLoop pw pl bs ry types total fuel i idx r).1.length := by
  intro fuel
  induction fuel with
  | zero => intro i idx r; simp [rowLoop]
  | succ m ih =>
      intro i idx r
      by_cases hbreak : (idx : ℤ) ≥ total
      · have hidx : types.length ≤ idx := by omega
        simp [rowLoop, hbreak, List.drop_eq_nil_of_le hidx]
      · have hidx : idx < types.length := by omega
        have hrec := ih (i + 1) (idx + 1)
          (npUniform (npUniform r (-(1/50)) (1/50)).2 (-(3/200)) (3/200)).2
        have hdrop : types.drop idx = types[idx] :: types.drop (idx + 1) :=
          List.drop_eq_getElem_cons hidx
        have hgetD : types.getD idx Species.bean = types[idx] := by
          simp [List.getD_eq_getElem?_getD, List.getElem?_eq_getElem hidx]
        simp only [rowLoop, if_neg (by omega : ¬ (idx : ℤ) ≥ total)]
        refine ⟨?_, ?_⟩
        · simp only [List.map_cons, hrec.1, hdrop, List.take_succ_cons, hgetD]
        · simp only [List.length_cons, hrec.2]
          omega

/-- Every coordinate emitted by the inner loop is the clip
`min (max · (1/20)) (plot_dim - 1/20)` of something; under plot
dimensions of at least `1/10` both clip bounds are honoured. -/
theorem rowLoop_bounds (pw pl bs ry : ℚ) (types : List Species) (total : ℤ)
    (hw : 1/10 ≤ pw) (hl : 1/10 ≤ pl) :
    ∀ (fuel i idx : ℕ) (r : Rng),
      ∀ p ∈ (rowLoop pw pl bs ry types total fuel i idx r).1,
        1/20 ≤ p.2.1 ∧ p.2.1 ≤ pw - 1/20 ∧ 1/20 ≤ p.2.2 ∧ p.2.2 ≤ pl - 1/20 := by
  intro fuel
  induction fuel with
  | zero => intro i idx r p hp; simp [rowLoop] at hp
  | succ m ih =>
      intro i idx r p hp
      by_cases hbreak : (idx : ℤ) ≥ total
      · simp [rowLoop, hbreak] at hp
      · simp only [rowLoop, if_neg (by omega : ¬ (idx : ℤ) ≥ total),
          List.mem_cons] at hp
        rcases hp with hp | hp
        · subst hp
          have hwx : (1 : ℚ)/20 ≤ pw - 1/20 := by linarith
          have hlx : (1 : ℚ)/20 ≤ pl - 1/20 := by linarith
          refine ⟨?_, ?_, ?_, ?_⟩
          · exact le_min (le_max_right _ _) hwx
          · exact min_le_right _ _
          · exact le_min (le_max_right _ _) hlx
          · exact min_le_right _ _
        · exact ih _ _ _ p hp

end GeneratorLemmas

/-- The plant count assigned to row `j` by the source
(`plants_per_row + (1 if row_idx < remainder else 0)`, plants.py line
89), as a natural number. -/
def sizeFun (ppr rem : ℤ) (j : ℕ) : ℕ :=
  (ppr + if (j : ℤ) < rem then 1 else 0).toNat

/-- The outer row loop: when the planned sizes of the remaining rows
exactly exhaust the remaining shuffled list, every row receives exactly
its planned count, and the concatenated output consumes the remaining
list in order. -/
theorem rowsLoop_spec (pw pl : ℚ) (types : List Species) (total ppr rem : ℤ)
    (hlen : types.length = total.toNat) (htot : 0 ≤ total) (hppr : 0 ≤ ppr) :
    ∀ (ys : List ℚ) (ridx idx : ℕ) (r : Rng),
      idx + ((List.range' ridx ys.length).map (sizeFun ppr rem)).sum = types.length →
      ((rowsLoop pw pl types total ppr rem ys ridx idx r).1.map List.length
          = (List.range' ridx ys.length).map (sizeFun ppr rem))
        ∧ (rowsLoop pw pl types total ppr rem ys ridx idx r).1.flatten.map Prod.fst
          = types.drop idx := by
  intro ys
  induction ys with
  | nil =>
      intro ridx idx r hsum
      simp only [List.length_nil, List.range'_zero, List.map_nil, List.sum_nil,
        Nat.add_zero] at hsum
      simp [rowsLoop, List.drop_eq_nil_of_le (Nat.le_of_eq hsum.symm)]
  | cons y rest ih =>
      intro ridx idx r hsum
      simp only [List.length_cons, List.range'_succ, List.map_cons, List.sum_cons] at hsum ⊢
      set n : ℤ := ppr + (if (ridx : ℤ) < rem then 1 else 0) with hn
      have hn0 : 0 ≤ n := by
        rw [hn]; split <;> omega
      have hsize : sizeFun ppr rem ridx = n.toNat := by
        simp [sizeFun, hn]
      by_cases hpos : n > 0
      · -- the row actually runs the inner loop with fuel `n.toNat`
        have hrl := rowLoop_spec pw pl (pw / ((n : ℚ) + 1)) y types total hlen htot
          n.toNat 0 idx r
        have hrow_len :
            (rowLoop pw pl (pw / ((n : ℚ) + 1)) y types total n.toNat 0 idx r).1.length
              = n.toNat := by
          have := congrArg List.length hrl.1
          simp only [List.length_map, List.length_take, List.length_drop] at this
          rw [this]
          rw [hsize] at hsum
          omega
        have hidx' :
            (rowLoop pw pl (pw / ((n : ℚ) + 1)) y types total n.toNat 0 idx r).2.1
              = idx + n.toNat := by
          rw [hrl.2, hrow_len]
        have hrec := ih (ridx + 1) (idx + n.toNat)
          (rowLoop pw pl (pw / ((n : ℚ) + 1)) y types total n.toNat 0 idx r).2.2
          (by rw [hsize] at hsum; omega)
        simp only [rowsLoop, ← hn, if_pos hpos, hidx', List.map_cons, List.flatten_cons,
          List.map_append]
        refine ⟨?_, ?_⟩
        · rw [hrow_len, hrec.1, hsize]
        · rw [hrl.1, hrec.2]
          have hdd : types.drop (idx + n.toNat) = (types.drop idx).drop n.toNat := by
            rw [List.drop_drop, Nat.add_comm]
          rw [hdd, List.take_append_drop]
      · -- `n = 0`: the guard skips the inner loop and the row is empty
        have hn' : n = 0 := by omega
        have hrec := ih (ridx + 1) idx
          r (by rw [hsize, hn'] at hsum; simpa using hsum)
        simp only [rowsLoop, ← hn, if_neg hpos, List.map_cons, List.flatten_cons,
          List.map_append]
        refine ⟨?_, ?_⟩
        · rw [hrec.1, hsize, hn']; rfl
        · simpa using hrec.2

/-- `np.linspace` returns exactly `num` values. -/
theorem linspace_length (a b : ℚ) (num : ℕ) : (linspace a b num).length = num := by
  unfold linspace
  by_cases h0 : num = 0
  · simp [h0]
  · by_cases h1 : num = 1
    · simp [h0, h1]
    · rw [if_neg h0, if_neg h1, List.length_map, List.length_range]

/-- `pyInt` of a nonnegative rational is its floor, hence nonnegative. -/
theorem pyInt_nonneg {q : ℚ} (h : 0 ≤ q) : 0 ≤ pyInt q := by
  rw [pyInt, if_pos h]
  exact Int.floor_nonneg.mpr h

/-- The per-species emerged counts are nonnegative for nonnegative
densities, dimensions and emergence rates. -/
theorem beanEmerged_nonneg {pw pl bd be : ℚ} (hpw : 0 ≤ pw) (hpl : 0 ≤ pl)
    (hbd : 0 ≤ bd) (hbe : 0 ≤ be) : 0 ≤ beanEmerged pw pl bd be := by
  refine pyInt_nonneg (mul_nonneg ?_ hbe)
  exact_mod_cast pyInt_nonneg (mul_nonneg hbd (mul_nonneg hpw hpl))

/-- Same for wheat. -/
theorem wheatEmerged_nonneg {pw pl wd we : ℚ} (hpw : 0 ≤ pw) (hpl : 0 ≤ pl)
    (hwd : 0 ≤ wd) (hwe : 0 ≤ we) : 0 ≤ wheatEmerged pw pl wd we := by
  refine pyInt_nonneg (mul_nonneg ?_ hwe)
  exact_mod_cast pyInt_nonneg (mul_nonneg hwd (mul_nonneg hpw hpl))

/-- Natural-number form of the row-size function, valid when the quotient
and remainder are nonnegative. -/
theorem sizeFun_eq_nat {ppr rem : ℤ} (hp : 0 ≤ ppr) (j : ℕ) :
    sizeFun ppr rem j = ppr.toNat + if j < rem.toNat then 1 else 0 := by
  unfold sizeFun
  by_cases h : (j : ℤ) < rem
  · rw [if_pos h, if_pos (by omega)]
    omega
  · rw [if_neg h, if_neg (by omega)]
    omega

/-- Closed form of the sum of the planned row sizes. -/
theorem sizes_sum (q rm : ℕ) : ∀ R : ℕ,
    ((List.range' 0 R).map (fun j => q + if j < rm then 1 else 0)).sum
      = R * q + min rm R := by
  intro R
  induction R with
  | zero => simp
  | succ m ih =>
      rw [List.range'_concat, List.map_append, List.sum_append, ih]
      simp only [List.map_cons, List.map_nil, List.sum_cons, List.sum_nil]
      by_cases h : m < rm
      · rw [if_pos (by omega)]
        have : min rm m = m := by omega
        have h2 : min rm (m + 1) = m + 1 := by omega
        rw [this, h2]
        ring
      · rw [if_neg (by omega)]
        have : min rm m = rm := by omega
        have h2 : min rm (m + 1) = rm := by omega
        rw [this, h2]
        ring

/-- Master characterisation of `generate_intercrop_rows` on valid inputs
(`n_rows ≥ 1`, nonnegative emerged counts): the call succeeds, each row
receives exactly its planned plant count, and the emitted species
sequence is a permutation of the pre-shuffle species multiset
`bean_emerged × bean ++ wheat_emerged × wheat`. -/
theorem generate_intercrop_rows_spec (g : Rng) (pw pl : ℚ) (n_rows : ℤ)
    (rs bd wd be we : ℚ) (seed : ℕ) (hn : 1 ≤ n_rows)
    (hb : 0 ≤ beanEmerged pw pl bd be) (hw : 0 ≤ wheatEmerged pw pl wd we) :
    ∃ rows, generate_intercrop_rows g pw pl n_rows rs bd wd be we seed = some rows
      ∧ rows.map List.length
          = (List.range' 0 n_rows.toNat).map
              (sizeFun ((beanEmerged pw pl bd be + wheatEmerged pw pl wd we).fdiv n_rows)
                ((beanEmerged pw pl bd be + wheatEmerged pw pl wd we).fmod n_rows))
      ∧ (rows.flatten.map Prod.fst).Perm
          (List.replicate (beanEmerged pw pl bd be).toNat Species.bean ++
            List.replicate (wheatEmerged pw pl wd we).toNat Species.wheat) := by
  set b := beanEmerged pw pl bd be with hbdef
  set w := wheatEmerged pw pl wd we with hwdef
  set total := b + w with htotaldef
  set types0 := List.replicate b.toNat Species.bean ++ List.replicate w.toNat Species.wheat
    with htypes0
  set r0 := mkRng seed with hr0
  set types := (npShuffle types0 r0).1 with htypes
  set ppr := total.fdiv n_rows with hpprdef
  set rem := total.fmod n_rows with hremdef
  have hperm : types.Perm types0 := npShuffle_perm types0 r0
  have hlen0 : types0.length = total.toNat := by
    rw [htypes0]
    simp only [List.length_append, List.length_replicate]
    omega
  have hlen : types.length = total.toNat := by rw [hperm.length_eq, hlen0]
  have htot : (0 : ℤ) ≤ total := by omega
  have hnpos : (0 : ℤ) < n_rows := by omega
  have hppr : 0 ≤ ppr := Int.fdiv_nonneg htot (le_of_lt hnpos)
  have hrem0 : 0 ≤ rem := Int.fmod_nonneg' total hnpos
  have hremlt : rem < n_rows := Int.fmod_lt_of_pos total hnpos
  have hid : n_rows * ppr + rem = total := Int.fdiv_add_fmod total n_rows
  have hsum0 : ∀ R : ℕ, R = n_rows.toNat →
      ((List.range' 0 R).map (sizeFun ppr rem)).sum = types.length := by
    intro R hR
    have hcong : (List.range' 0 R).map (sizeFun ppr rem)
        = (List.range' 0 R).map (fun j => ppr.toNat + if j < rem.toNat then 1 else 0) :=
      List.map_congr_left (fun j _ => sizeFun_eq_nat hppr j)
    rw [hcong, sizes_sum, hlen]
    have hminr : min rem.toNat R = rem.toNat := by omega
    rw [hminr]
    have : ((R * ppr.toNat + rem.toNat : ℕ) : ℤ) = ((total.toNat : ℕ) : ℤ) := by
      push_cast
      rw [hR]
      rw [Int.toNat_of_nonneg hppr, Int.toNat_of_nonneg hrem0,
        Int.toNat_of_nonneg htot, Int.toNat_of_nonneg (by omega : (0:ℤ) ≤ n_rows)]
      linarith
    exact_mod_cast this
  have hrows := rowsLoop_spec pw pl types total ppr rem hlen htot hppr
    (linspace rs (pl - rs) n_rows.toNat) 0 0 (npShuffle types0 r0).2
    (by rw [linspace_length, Nat.zero_add]; exact hsum0 _ rfl)
  refine ⟨(rowsLoop pw pl types total ppr rem
      (linspace rs (pl - rs) n_rows.toNat) 0 0 (npShuffle types0 r0).2).1, ?_, ?_, ?_⟩
  · unfold generate_intercrop_rows
    rw [if_neg (by omega : ¬ n_rows ≤ 0)]
  · rw [hrows.1, linspace_length]
  · rw [hrows.2, List.drop_zero]
    exact hperm

/-- Species count of the emitted layout in terms of the species sequence. -/
theorem countP_fst_eq_count (ps : List Position) (s : Species) :
    ps.countP (fun p => p.1 = s) = (ps.map Prod.fst).count s := by
  rw [List.count_eq_countP, List.countP_map]
  rfl

/-- Shared helper: on valid inputs the emitted per-species counts are the
two doubly-truncated emerged counts computed by the source, and the total
is their sum — for every ambient PRNG state and every seed. -/
theorem generate_counts (g : Rng) (pw pl : ℚ) (n_rows : ℤ) (rs bd wd be we : ℚ)
    (seed : ℕ) (hn : 1 ≤ n_rows)
    (hb : 0 ≤ beanEmerged pw pl bd be) (hw : 0 ≤ wheatEmerged pw pl wd we) :
    (generate_intercrop_positions g pw pl n_rows rs bd wd be we seed).map speciesCounts
      = some ((beanEmerged pw pl bd be).toNat, (wheatEmerged pw pl wd we).toNat,
          (beanEmerged pw pl bd be).toNat + (wheatEmerged pw pl wd we).toNat) := by
  obtain ⟨rows, hgen, _, hperm⟩ :=
    generate_intercrop_rows_spec g pw pl n_rows rs bd wd be we seed hn hb hw
  unfold generate_intercrop_positions
  rw [hgen, Option.map_some', Option.map_some']
  have hbean : (rows.flatten.map Prod.fst).count Species.bean
      = (beanEmerged pw pl bd be).toNat := by
    rw [hperm.count_eq]
    simp [List.count_append, List.count_replicate]
  have hwheat : (rows.flatten.map Prod.fst).count Species.wheat
      = (wheatEmerged pw pl wd we).toNat := by
    rw [hperm.count_eq]
    simp [List.count_append, List.count_replicate]
  have hlen : rows.flatten.length
      = (beanEmerged pw pl bd be).toNat + (wheatEmerged pw pl wd we).toNat := by
    have h := hperm.length_eq
    rw [List.length_map] at h
    rw [h, List.length_append, List.length_replicate, List.length_replicate]
  unfold speciesCounts
  rw [countP_fst_eq_count, countP_fst_eq_count, hbean, hwheat, hlen]

/-- Per-row length list of a grouped layout. -/
def rowLengths (rows : List (List Position)) : List ℕ :=
  rows.map List.length

/-- The row-count plan stated by the specification:
`base = total // n_rows`, and the first `total % n_rows` rows receive one
extra plant. -/
def expectedRowCounts (total R : ℕ) : List ℕ :=
  (List.range R).map (fun j => total / R + if j < total % R then 1 else 0)

/-- `max − min ≤ 1` over a list of counts, phrased pairwise. -/
def balancedWithinOne (cs : List ℕ) : Prop :=
  ∀ c1 ∈ cs, ∀ c2 ∈ cs, c1 ≤ c2 + 1

/-- Shared helper: on valid inputs the per-row emitted counts equal the
planned row counts. -/
theorem generate_row_lengths (g : Rng) (pw pl : ℚ) (n_rows : ℤ) (rs bd wd be we : ℚ)
    (seed : ℕ) (hn : 1 ≤ n_rows)
    (hb : 0 ≤ beanEmerged pw pl bd be) (hw : 0 ≤ wheatEmerged pw pl wd we) :
    (generate_intercrop_rows g pw pl n_rows rs bd wd be we seed).map rowLengths
      = some (expectedRowCounts
          ((beanEmerged pw pl bd be + wheatEmerged pw pl wd we).toNat) n_rows.toNat) := by
  obtain ⟨rows, hgen, hlens, _⟩ :=
    generate_intercrop_rows_spec g pw pl n_rows rs bd wd be we seed hn hb hw
  rw [hgen, Option.map_some']
  unfold rowLengths
  rw [hlens]
  set total := beanEmerged pw pl bd be + wheatEmerged pw pl wd we with htotal
  have htot : (0 : ℤ) ≤ total := by omega
  have hnr : ((n_rows.toNat : ℕ) : ℤ) = n_rows := Int.toNat_of_nonneg (by omega)
  have htt : ((total.toNat : ℕ) : ℤ) = total := Int.toNat_of_nonneg htot
  have hfdiv : total.fdiv n_rows = ((total.toNat / n_rows.toNat : ℕ) : ℤ) := by
    rw [Int.ofNat_fdiv, hnr, htt]
  have hfmod : total.fmod n_rows = ((total.toNat % n_rows.toNat : ℕ) : ℤ) := by
    rw [Int.ofNat_fmod, hnr, htt]
  unfold expectedRowCounts
  rw [List.range_eq_range']
  congr 1
  refine List.map_congr_left ?_
  intro j _
  rw [sizeFun_eq_nat (by rw [hfdiv]; positivity) j, hfdiv, hfmod]
  simp only [Int.toNat_ofNat, Int.toNat_natCast]

/-- Bounds for every coordinate of the flattened output of the outer
loop, with no side conditions other than the plot being at least 1/10 m
in each dimension. -/
theorem rowsLoop_bounds (pw pl : ℚ) (types : List Species) (total ppr rem : ℤ)
    (hw : 1/10 ≤ pw) (hl : 1/10 ≤ pl) :
    ∀ (ys : List ℚ) (ridx idx : ℕ) (r : Rng),
      ∀ p ∈ (rowsLoop pw pl types total ppr rem ys ridx idx r).1.flatten,
        1/20 ≤ p.2.1 ∧ p.2.1 ≤ pw - 1/20 ∧ 1/20 ≤ p.2.2 ∧ p.2.2 ≤ pl - 1/20 := by
  intro ys
  induction ys with
  | nil => intro ridx idx r p hp; simp [rowsLoop] at hp
  | cons y rest ih =>
      intro ridx idx r p hp
      simp only [rowsLoop, List.flatten_cons, List.mem_append] at hp
      rcases hp with hp | hp
      · split_ifs at hp
        all_goals first
          | exact rowLoop_bounds pw pl _ y types total hw hl _ _ _ _ p hp
          | simp at hp
      · exact ih _ _ _ p hp

/-- The bounds-law predicate for one emitted entry: the clipped plot
window `[0.05, width−0.05] × [0.05, length−0.05]`. -/
def inBounds (pw pl : ℚ) (p : Position) : Prop :=
  1/20 ≤ p.2.1 ∧ p.2.1 ≤ pw - 1/20 ∧ 1/20 ≤ p.2.2 ∧ p.2.2 ≤ pl - 1/20

/-- The bounds law for a whole layout. -/
def AllInBounds (pw pl : ℚ) (ps : List Position) : Prop :=
  ∀ p ∈ ps, inBounds pw pl p

/-- Number of emitted entries whose x-coordinate violates the claimed
lower bound `0.05 ≤ x`. -/
def xLowViolations (ps : List Position) : ℕ :=
  ps.countP (fun p => p.2.1 < 1/20)

/-- The planned row counts differ pairwise by at most one. -/
theorem expectedRowCounts_balanced (T R : ℕ) :
    balancedWithinOne (expectedRowCounts T R) := by
  intro c1 h1 c2 h2
  unfold expectedRowCounts at h1 h2
  obtain ⟨j1, _, rfl⟩ := List.mem_map.mp h1
  obtain ⟨j2, _, rfl⟩ := List.mem_map.mp h2
  split_ifs <;> omega

/-- The planned row counts sum to the total. -/
theorem expectedRowCounts_sum (T R : ℕ) (hR : 1 ≤ R) :
    (expectedRowCounts T R).sum = T := by
  unfold expectedRowCounts
  rw [List.range_eq_range', sizes_sum]
  have hmod : T % R < R := Nat.mod_lt _ (by omega)
  have hmin : min (T % R) R = T % R := by omega
  rw [hmin]
  exact Nat.div_add_mod T R

section ClaimTheorems

attribute [local semireducible] Rat.mul Rat.add Rat.inv Rat.sub

/-- Claim C1, counterexample.  At `plot_width = 5.9`, `plot_length = 1`,
`n_rows = 1`, `bean_density = 1`, `wheat_density = 0`,
`bean_emergence = 0.95`: the source emits
`int(int(5.9) * 0.95) = int(4.75) = 4` bean plants, but the claimed law
`⌊density · area · emergence⌋` gives `⌊5.605⌋ = 5`.  The emitted counts do
not depend on the PRNG draws, so this evaluation refutes the claim for
the real code as well. -/
theorem claim_C1_counterexample :
    (generate_intercrop_positions ⟨0⟩ (59/10) 1 1 0 1 0 (19/20) (4/5) 42).map speciesCounts
        = some (4, 0, 4)
      ∧ (⌊(1 : ℚ) * ((59/10) * 1) * (19/20)⌋ + ⌊(0 : ℚ) * ((59/10) * 1) * (4/5)⌋ : ℤ)
          = 5 := by
  constructor
  · decide
  · decide

/-- Claim C1 (amended): for every ambient PRNG state, seed and valid
parameters (`n_rows ≥ 1`, nonnegative dimensions, densities and emergence
rates), the per-species emitted count equals the doubly-truncated
`int(int(density · area) · emergence)` computed by the source (seeds sown
first, then emerged), and the total number of emitted positions is the
sum of the two. -/
theorem claim_C1_count_law (g : Rng) (pw pl : ℚ) (n_rows : ℤ) (rs bd wd be we : ℚ)
    (seed : ℕ) (hn : 1 ≤ n_rows) (hpw : 0 ≤ pw) (hpl : 0 ≤ pl) (hbd : 0 ≤ bd)
    (hwd : 0 ≤ wd) (hbe : 0 ≤ be) (hwe : 0 ≤ we) :
    (generate_intercrop_positions g pw pl n_rows rs bd wd be we seed).map speciesCounts
      = some ((beanEmerged pw pl bd be).toNat, (wheatEmerged pw pl wd we).toNat,
          (beanEmerged pw pl bd be).toNat + (wheatEmerged pw pl wd we).toNat) :=
  generate_counts g pw pl n_rows rs bd wd be we seed hn
    (beanEmerged_nonneg hpw hpl hbd hbe) (wheatEmerged_nonneg hpw hpl hwd hwe)

/-- Witness for the amended C1 at Scenario A
(`1 m × 1 m`, 4 rows, 36 bean seeds/m², 87.5 % emergence, seed 42):
the hypotheses hold and the law yields 31 bean, 0 wheat, 31 total. -/
theorem claim_C1_witness :
    ((1 : ℤ) ≤ 4 ∧ (0 : ℚ) ≤ 1 ∧ (0 : ℚ) ≤ 36 ∧ (0 : ℚ) ≤ 0 ∧ (0 : ℚ) ≤ 7/8
        ∧ (0 : ℚ) ≤ 4/5)
      ∧ (generate_intercrop_positions ⟨0⟩ 1 1 4 (21/100) 36 0 (7/8) (4/5) 42).map
            speciesCounts
          = some ((beanEmerged 1 1 36 (7/8)).toNat, (wheatEmerged 1 1 0 (4/5)).toNat,
              (beanEmerged 1 1 36 (7/8)).toNat + (wheatEmerged 1 1 0 (4/5)).toNat) :=
  ⟨⟨by norm_num, by norm_num, by norm_num, by norm_num, by norm_num, by norm_num⟩,
    claim_C1_count_law ⟨0⟩ 1 1 4 (21/100) 36 0 (7/8) (4/5) 42 (by norm_num) (by norm_num)
      (by norm_num) (by norm_num) (by norm_num) (by norm_num) (by norm_num)⟩

/-- Claim C6 (confirmed): the layout is a deterministic function of the
arguments including the seed.  The only stateful input of the source is
the global numpy PRNG, modelled by the ambient state `g`; since
`np.random.seed(seed)` replaces it on entry, two invocations with
identical arguments — under any two ambient PRNG states — return
identical output sequences (same species, coordinates and order). -/
theorem claim_C6_determinism (g1 g2 : Rng) (pw pl : ℚ) (n_rows : ℤ)
    (rs bd wd be we : ℚ) (seed : ℕ) :
    generate_intercrop_positions g1 pw pl n_rows rs bd wd be we seed
      = generate_intercrop_positions g2 pw pl n_rows rs bd wd be we seed := rfl

/-- Claim C7, counterexample.  At `plot_width = 0.08 < 0.1` the clip
`np.clip(x, 0.05, width − 0.05)` returns `width − 0.05 = 0.03 < 0.05` for
every plant (whatever the jitter draws), so all four emitted positions
violate the claimed lower bound `0.05 ≤ x`. -/
theorem claim_C7_counterexample :
    (generate_intercrop_positions ⟨0⟩ (2/25) 1 1 (1/2) 50 0 1 1 42).map List.length
        = some 4
      ∧ (generate_intercrop_positions ⟨0⟩ (2/25) 1 1 (1/2) 50 0 1 1 42).map xLowViolations
          = some 4 := by
  constructor
  · decide
  · decide

/-- Claim C7 (amended): whenever both plot dimensions are at least
`0.1` m (so that the two clip bounds are ordered), every emitted `(x, y)`
satisfies `0.05 ≤ x ≤ width − 0.05` and `0.05 ≤ y ≤ length − 0.05`; no
other restriction on the inputs is needed. -/
theorem claim_C7_bounds_law (g : Rng) (pw pl : ℚ) (n_rows : ℤ) (rs bd wd be we : ℚ)
    (seed : ℕ) (hpw : 1/10 ≤ pw) (hpl : 1/10 ≤ pl) :
    AllInBounds pw pl
      ((generate_intercrop_positions g pw pl n_rows rs bd wd be we seed).getD []) := by
  unfold AllInBounds inBounds
  unfold generate_intercrop_positions generate_intercrop_rows
  by_cases hn : n_rows ≤ 0
  · rw [if_pos hn]
    intro p hp
    simp at hp
  · rw [if_neg hn]
    intro p hp
    simp only [Option.map_some', Option.getD_some] at hp
    exact rowsLoop_bounds pw pl _ _ _ _ hpw hpl _ _ _ _ p hp

/-- Witness for the amended C7 at the default plot (`1 m × 1 m`). -/
theorem claim_C7_witness :
    ((1 : ℚ)/10 ≤ 1 ∧ (1 : ℚ)/10 ≤ 1)
      ∧ AllInBounds 1 1
          ((generate_intercrop_positions ⟨0⟩ 1 1 4 (21/100) 36 0 (7/8) (4/5) 42).getD []) :=
  ⟨⟨by norm_num, by norm_num⟩,
    claim_C7_bounds_law ⟨0⟩ 1 1 4 (21/100) 36 0 (7/8) (4/5) 42 (by norm_num) (by norm_num)⟩

/-- Claim C8 (confirmed): with `n_rows ≥ 1` and valid parameters, the
emitted per-row counts are exactly `total // n_rows` plus one extra for
the first `total % n_rows` rows in row order; consequently the counts
differ pairwise by at most one and sum to the total. -/
theorem claim_C8_row_balance (g : Rng) (pw pl : ℚ) (n_rows : ℤ) (rs bd wd be we : ℚ)
    (seed : ℕ) (hn : 1 ≤ n_rows) (hpw : 0 ≤ pw) (hpl : 0 ≤ pl) (hbd : 0 ≤ bd)
    (hwd : 0 ≤ wd) (hbe : 0 ≤ be) (hwe : 0 ≤ we) :
    (generate_intercrop_rows g pw pl n_rows rs bd wd be we seed).map rowLengths
        = some (expectedRowCounts
            ((beanEmerged pw pl bd be + wheatEmerged pw pl wd we).toNat) n_rows.toNat)
      ∧ balancedWithinOne (expectedRowCounts
          ((beanEmerged pw pl bd be + wheatEmerged pw pl wd we).toNat) n_rows.toNat)
      ∧ (expectedRowCounts
          ((beanEmerged pw pl bd be + wheatEmerged pw pl wd we).toNat) n_rows.toNat).sum
          = (beanEmerged pw pl bd be + wheatEmerged pw pl wd we).toNat :=
  ⟨generate_row_lengths g pw pl n_rows rs bd wd be we seed hn
      (beanEmerged_nonneg hpw hpl hbd hbe) (wheatEmerged_nonneg hpw hpl hwd hwe),
    expectedRowCounts_balanced _ _,
    expectedRowCounts_sum _ _ (by omega)⟩

/-- Witness for C8 at Scenario A: 31 plants over 4 rows. -/
theorem claim_C8_witness :
    ((1 : ℤ) ≤ 4 ∧ (0 : ℚ) ≤ 1 ∧ (0 : ℚ) ≤ 36 ∧ (0 : ℚ) ≤ 0 ∧ (0 : ℚ) ≤ 7/8
        ∧ (0 : ℚ) ≤ 4/5)
      ∧ ((generate_intercrop_rows ⟨0⟩ 1 1 4 (21/100) 36 0 (7/8) (4/5) 42).map rowLengths
            = some (expectedRowCounts
                ((beanEmerged 1 1 36 (7/8) + wheatEmerged 1 1 0 (4/5)).toNat) (4 : ℤ).toNat)
          ∧ balancedWithinOne (expectedRowCounts
              ((beanEmerged 1 1 36 (7/8) + wheatEmerged 1 1 0 (4/5)).toNat) (4 : ℤ).toNat)
          ∧ (expectedRowCounts
              ((beanEmerged 1 1 36 (7/8) + wheatEmerged 1 1 0 (4/5)).toNat) (4 : ℤ).toNat).sum
              = (beanEmerged 1 1 36 (7/8) + wheatEmerged 1 1 0 (4/5)).toNat) :=
  ⟨⟨by norm_num, by norm_num, by norm_num, by norm_num, by norm_num, by norm_num⟩,
    claim_C8_row_balance ⟨0⟩ 1 1 4 (21/100) 36 0 (7/8) (4/5) 42 (by norm_num) (by norm_num)
      (by norm_num) (by norm_num) (by norm_num) (by norm_num) (by norm_num)⟩

/-- Claim C9 (confirmed): for any two seeds (and any two ambient PRNG
states) and otherwise identical valid arguments, the generator emits the
same per-species counts and the same total — the seed only affects the
shuffle order and the jitter, which the counts do not depend on. -/
theorem claim_C9_seed_independence (g1 g2 : Rng) (pw pl : ℚ) (n_rows : ℤ)
    (rs bd wd be we : ℚ) (s1 s2 : ℕ) (hn : 1 ≤ n_rows) (hpw : 0 ≤ pw) (hpl : 0 ≤ pl)
    (hbd : 0 ≤ bd) (hwd : 0 ≤ wd) (hbe : 0 ≤ be) (hwe : 0 ≤ we) :
    (generate_intercrop_positions g1 pw pl n_rows rs bd wd be we s1).map speciesCounts
      = (generate_intercrop_positions g2 pw pl n_rows rs bd wd be we s2).map speciesCounts := by
  rw [generate_counts g1 pw pl n_rows rs bd wd be we s1 hn
      (beanEmerged_nonneg hpw hpl hbd hbe) (wheatEmerged_nonneg hpw hpl hwd hwe),
    generate_counts g2 pw pl n_rows rs bd wd be we s2 hn
      (beanEmerged_nonneg hpw hpl hbd hbe) (wheatEmerged_nonneg hpw hpl hwd hwe)]

/-- Witness for C9: seeds 42 and 7 at Scenario A. -/
theorem claim_C9_witness :
    ((1 : ℤ) ≤ 4 ∧ (0 : ℚ) ≤ 1 ∧ (0 : ℚ) ≤ 36 ∧ (0 : ℚ) ≤ 0 ∧ (0 : ℚ) ≤ 7/8
        ∧ (0 : ℚ) ≤ 4/5)
      ∧ (generate_intercrop_positions ⟨0⟩ 1 1 4 (21/100) 36 0 (7/8) (4/5) 42).map
            speciesCounts
          = (generate_intercrop_positions ⟨9⟩ 1 1 4 (21/100) 36 0 (7/8) (4/5) 7).map
              speciesCounts :=
  ⟨⟨by norm_num, by norm_num, by norm_num, by norm_num, by norm_num, by norm_num⟩,
    claim_C9_seed_independence ⟨0⟩ ⟨9⟩ 1 1 4 (21/100) 36 0 (7/8) (4/5) 42 7 (by norm_num)
      (by norm_num) (by norm_num) (by norm_num) (by norm_num) (by norm_num) (by norm_num)⟩

end ClaimTheorems

/-- Segmentation class strings (constants.py lines 28-30). -/
def PLANT_PART_GROUND : String := "ground"

/-- Class string assigned to every non-ground primitive. -/
def PLANT_PART_BEAN : String := "bean"

/-- Class string for wheat (never written by the label assignor). -/
def PLANT_PART_WHEAT : String := "wheat"

/-- `apply_species_labels` (labels.py lines 14-66).  The scene store's
`setPrimitiveDataString(uuid, "plant_part", value)` calls are modelled as
the ordered write list `(uuid, value)`: the ground identity is written
`"ground"` first, then the loop writes `"bean"` for every uuid different
from the ground uuid, in `all_uuids` order.  The function returns the
writes together with `(labeled_count, bean_primitives,
wheat_primitives)`.  The `plant_species_map` parameter is accepted but
never read (marked "for future use" in the source). -/
def apply_species_labels (all_uuids : List ℕ) (ground_uuid : ℕ)
    (plant_species_map : List (ℕ × ℕ)) : List (ℕ × String) × ℕ × ℕ × ℕ :=
  let _ := plant_species_map
  let others := (all_uuids.filter (fun u => u ≠ ground_uuid)).map
    (fun u => (u, PLANT_PART_BEAN))
  ((ground_uuid, PLANT_PART_GROUND) :: others, 1 + others.length, others.length, 0)

/-- Looking up any member of a list in the constant-value association
list built from it yields that constant. -/
theorem lookup_map_const (l : List ℕ) (u : ℕ) (s : String) (h : u ∈ l) :
    List.lookup u (l.map (fun v => (v, s))) = some s := by
  induction l with
  | nil => simp at h
  | cons a t ih =>
      rcases List.mem_cons.mp h with rfl | hmem
      · simp [List.lookup]
      · by_cases hua : u = a
        · subst hua; simp [List.lookup]
        · have hb : (u == a) = false := beq_eq_false_iff_ne.mpr hua
          simp only [List.map_cons, List.lookup, hb]
          exact ih hmem

/-- The label value every non-ground known identity receives. -/
def AllOthersLabeledBean (all_uuids : List ℕ) (ground_uuid : ℕ)
    (plant_species_map : List (ℕ × ℕ)) : Prop :=
  ∀ u ∈ all_uuids, u ≠ ground_uuid →
    List.lookup u (apply_species_labels all_uuids ground_uuid plant_species_map).1
      = some PLANT_PART_BEAN

/-- Claim C2 (confirmed): `apply_species_labels` assigns `"ground"` to the
ground identity and the single species string `"bean"` to every other
known identity; its entire output is independent of the per-instance
species map, and the wheat primitive count it returns is the constant
`0`. -/
theorem claim_C2_label_assignor (all_uuids : List ℕ) (ground_uuid : ℕ)
    (sm sm' : List (ℕ × ℕ)) :
    apply_species_labels all_uuids ground_uuid sm
        = apply_species_labels all_uuids ground_uuid sm'
      ∧ List.lookup ground_uuid (apply_species_labels all_uuids ground_uuid sm).1
          = some PLANT_PART_GROUND
      ∧ AllOthersLabeledBean all_uuids ground_uuid sm
      ∧ (apply_species_labels all_uuids ground_uuid sm).2.2.2 = 0 := by
  refine ⟨rfl, ?_, ?_, rfl⟩
  · simp [apply_species_labels, List.lookup]
  · intro u hu hne
    unfold apply_species_labels
    have hb : (u == ground_uuid) = false := beq_eq_false_iff_ne.mpr hne
    simp only [List.lookup, hb]
    exact lookup_map_const _ u _ (List.mem_filter.mpr ⟨hu, by simpa using hne⟩)

/-- The external Helios scene store at the interface boundary used by
`create_soil_plane`: a fresh-uuid counter and the list of primitive uuids
in creation order. -/
structure Ctx where
  nextUUID : ℕ
  prims : List ℕ

/-- `context.addPatch`: one new primitive, returning its uuid. -/
def addPatch (c : Ctx) : ℕ × Ctx :=
  (c.nextUUID, ⟨c.nextUUID + 1, c.prims ++ [c.nextUUID]⟩)

/-- `context.addTrianglesFromArraysTextured` with `nfaces` faces: one new
primitive per face. -/
def addTrianglesFromArraysTextured (c : Ctx) (nfaces : ℕ) : List ℕ × Ctx :=
  ((List.range nfaces).map (fun i => c.nextUUID + i),
    ⟨c.nextUUID + nfaces, c.prims ++ (List.range nfaces).map (fun i => c.nextUUID + i)⟩)

/-- `context.addTile` with `subdiv × subdiv` subdivisions: one primitive
per sub-patch. -/
def addTile (c : Ctx) (subdiv : ℕ) : Ctx :=
  ⟨c.nextUUID + subdiv * subdiv,
    c.prims ++ (List.range (subdiv * subdiv)).map (fun i => c.nextUUID + i)⟩

/-- `create_soil_plane` (soil.py lines 15-112): add the ground obstacle
patch; then, if the texture file was found (`texture_found`) and the
textured-triangle call succeeds (`textured_ok`), add the two textured
soil triangles (the `faces` array has two rows); otherwise fall back to a
plain tile.  Returns `(ground_uuid, margin)` — only the obstacle patch's
uuid, never the triangles'. -/
def create_soil_plane (c : Ctx) (width length : ℚ)
    (texture_found textured_ok : Bool) (subdivisions : ℕ) (margin : ℚ) :
    (ℕ × ℚ) × Ctx :=
  let _ := (width, length)
  let (ground_uuid, c1) := addPatch c
  let c2 :=
    if texture_found then
      if textured_ok then (addTrianglesFromArraysTextured c1 2).2
      else addTile c1 subdivisions
    else addTile c1 subdivisions
  ((ground_uuid, margin), c2)

/-- `SOIL_REFLECTANCE` (constants.py lines 57-62). -/
def SOIL_REFLECTANCE : String → Option ℚ
  | "Red" => some (35/100)
  | "Green" => some (25/100)
  | "Blue" => some (18/100)
  | "NIR" => some (38/100)
  | _ => none

/-- `LEAF_REFLECTANCE` (constants.py lines 66-71). -/
def LEAF_REFLECTANCE : String → Option ℚ
  | "Red" => some (10/100)
  | "Green" => some (35/100)
  | "Blue" => some (15/100)
  | "NIR" => some (50/100)
  | _ => none

/-- `LEAF_TRANSMISSIVITY` (constants.py lines 74-79). -/
def LEAF_TRANSMISSIVITY : String → Option ℚ
  | "Red" => some (5/100)
  | "Green" => some (15/100)
  | "Blue" => some (8/100)
  | "NIR" => some (40/100)
  | _ => none

/-- `set_soil_properties` (properties.py lines 18-43): for each band in
the soil table, write reflectivity from the table and transmissivity 0.
Writes are modelled as `(uuid, field, value)` triples. -/
def set_soil_properties (uuid : ℕ) (bands : List String) : List (ℕ × String × ℚ) :=
  bands.flatMap (fun band =>
    match SOIL_REFLECTANCE band with
    | some refl =>
        [(uuid, "reflectivity_" ++ band, refl), (uuid, "transmissivity_" ++ band, 0)]
    | none => [])

/-- `set_leaf_properties` (properties.py lines 46-72): reflectivity and
transmissivity from the leaf tables, independently per table. -/
def set_leaf_properties (uuid : ℕ) (bands : List String) : List (ℕ × String × ℚ) :=
  bands.flatMap (fun band =>
    (match LEAF_REFLECTANCE band with
     | some refl => [(uuid, "reflectivity_" ++ band, refl)]
     | none => []) ++
    (match LEAF_TRANSMISSIVITY band with
     | some t => [(uuid, "transmissivity_" ++ band, t)]
     | none => []))

/-- `apply_radiative_properties` (properties.py lines 75-111): every known
identity gets the soil coefficients when it equals the single ground
uuid, and the leaf coefficients otherwise; returns the number of
configured primitives. -/
def apply_radiative_properties (all_uuids : List ℕ) (ground_uuid : ℕ)
    (bands : List String) : List (ℕ × String × ℚ) × ℕ :=
  (all_uuids.flatMap (fun uuid =>
    if uuid = ground_uuid then set_soil_properties uuid bands
    else set_leaf_properties uuid bands), all_uuids.length)

/-- The RGB+NIR band list of the multispectral camera path
(generate_scene.py line 296). -/
def rgbnBands : List String := ["Red", "Green", "Blue", "NIR"]

/-- Every write of `set_soil_properties` targets the given uuid. -/
theorem set_soil_properties_uuid (u : ℕ) (bands : List String) :
    ∀ e ∈ set_soil_properties u bands, e.1 = u := by
  intro e he
  unfold set_soil_properties at he
  obtain ⟨band, _, hmem⟩ := List.mem_flatMap.mp he
  cases hsr : SOIL_REFLECTANCE band with
  | none => rw [hsr] at hmem; simp at hmem
  | some refl =>
      rw [hsr] at hmem
      simp only [List.mem_cons, List.not_mem_nil, or_false] at hmem
      rcases hmem with rfl | rfl <;> rfl

/-- Every write of `set_leaf_properties` targets the given uuid. -/
theorem set_leaf_properties_uuid (u : ℕ) (bands : List String) :
    ∀ e ∈ set_leaf_properties u bands, e.1 = u := by
  intro e he
  unfold set_leaf_properties at he
  obtain ⟨band, _, hmem⟩ := List.mem_flatMap.mp he
  rw [List.mem_append] at hmem
  rcases hmem with hmem | hmem
  · cases hlr : LEAF_REFLECTANCE band with
    | none => rw [hlr] at hmem; simp at hmem
    | some refl => rw [hlr] at hmem; rw [List.mem_singleton.mp hmem]
  · cases hlt : LEAF_TRANSMISSIVITY band with
    | none => rw [hlt] at hmem; simp at hmem
    | some t => rw [hlt] at hmem; rw [List.mem_singleton.mp hmem]


/-- The concrete write list of `set_leaf_properties` on the RGB+NIR
bands. -/
theorem set_leaf_rgbn (u : ℕ) :
    set_leaf_properties u rgbnBands =
      [(u, "reflectivity_Red", 10/100), (u, "transmissivity_Red", 5/100),
       (u, "reflectivity_Green", 35/100), (u, "transmissivity_Green", 15/100),
       (u, "reflectivity_Blue", 15/100), (u, "transmissivity_Blue", 8/100),
       (u, "reflectivity_NIR", 50/100), (u, "transmissivity_NIR", 40/100)] := rfl

/-- Claim C10 (confirmed): when the soil texture is found and the
textured-triangle call succeeds, `create_soil_plane` adds two
ground-surface triangle primitives whose identities (`nextUUID + 1`,
`nextUUID + 2`) differ from the single returned ground identity
(`nextUUID`); since labeling and radiative-property assignment branch
solely on that returned identity, each such triangle — once among the
known identities — receives the vegetation class string `"bean"` and the
leaf NIR reflectance `0.50` / transmissivity `0.40`, and never the soil
NIR reflectance `0.38` or the forced ground transmissivity `0`. -/
theorem claim_C10_textured_soil_mislabels (c : Ctx) (w l : ℚ) (subdiv : ℕ)
    (sm : List (ℕ × ℕ)) (all_uuids : List ℕ)
    (h1 : c.nextUUID + 1 ∈ all_uuids) (h2 : c.nextUUID + 2 ∈ all_uuids) :
    (create_soil_plane c w l true true subdiv (3/10)).1.1 = c.nextUUID
      ∧ c.nextUUID + 1 ∈ (create_soil_plane c w l true true subdiv (3/10)).2.prims
      ∧ c.nextUUID + 2 ∈ (create_soil_plane c w l true true subdiv (3/10)).2.prims
      ∧ c.nextUUID + 1 ≠ c.nextUUID
      ∧ c.nextUUID + 2 ≠ c.nextUUID
      ∧ List.lookup (c.nextUUID + 1)
            (apply_species_labels all_uuids c.nextUUID sm).1 = some PLANT_PART_BEAN
      ∧ List.lookup (c.nextUUID + 2)
            (apply_species_labels all_uuids c.nextUUID sm).1 = some PLANT_PART_BEAN
      ∧ (c.nextUUID + 1, "reflectivity_NIR", (50 : ℚ)/100)
          ∈ (apply_radiative_properties all_uuids c.nextUUID rgbnBands).1
      ∧ (c.nextUUID + 1, "transmissivity_NIR", (40 : ℚ)/100)
          ∈ (apply_radiative_properties all_uuids c.nextUUID rgbnBands).1
      ∧ (c.nextUUID + 1, "reflectivity_NIR", (38 : ℚ)/100)
          ∉ (apply_radiative_properties all_uuids c.nextUUID rgbnBands).1
      ∧ (c.nextUUID + 1, "transmissivity_NIR", (0 : ℚ))
          ∉ (apply_radiative_properties all_uuids c.nextUUID rgbnBands).1 := by
  have hne1 : c.nextUUID + 1 ≠ c.nextUUID := by omega
  have hne2 : c.nextUUID + 2 ≠ c.nextUUID := by omega
  have hlabel : ∀ u ∈ all_uuids, u ≠ c.nextUUID →
      List.lookup u (apply_species_labels all_uuids c.nextUUID sm).1
        = some PLANT_PART_BEAN :=
    (claim_C2_label_assignor all_uuids c.nextUUID sm sm).2.2.1
  refine ⟨rfl, ?_, ?_, hne1, hne2, hlabel _ h1 hne1, hlabel _ h2 hne2, ?_, ?_, ?_, ?_⟩
  · simp [create_soil_plane, addPatch, addTrianglesFromArraysTextured, List.range_succ]
  · simp [create_soil_plane, addPatch, addTrianglesFromArraysTextured, List.range_succ]
  · refine List.mem_flatMap.mpr ⟨c.nextUUID + 1, h1, ?_⟩
    rw [if_neg hne1, set_leaf_rgbn]
    simp
  · refine List.mem_flatMap.mpr ⟨c.nextUUID + 1, h1, ?_⟩
    rw [if_neg hne1, set_leaf_rgbn]
    simp
  · intro hmem
    obtain ⟨u, hu, hin⟩ := List.mem_flatMap.mp hmem
    by_cases hug : u = c.nextUUID
    · rw [if_pos hug] at hin
      have := set_soil_properties_uuid u rgbnBands _ hin
      simp only at this
      omega
    · rw [if_neg hug] at hin
      have huu := set_leaf_properties_uuid u rgbnBands _ hin
      simp only at huu
      rw [huu, set_leaf_rgbn] at hin
      simp [Prod.mk.injEq] at hin
      norm_num at hin
  · intro hmem
    obtain ⟨u, hu, hin⟩ := List.mem_flatMap.mp hmem
    by_cases hug : u = c.nextUUID
    · rw [if_pos hug] at hin
      have := set_soil_properties_uuid u rgbnBands _ hin
      simp only at this
      omega
    · rw [if_neg hug] at hin
      have huu := set_leaf_properties_uuid u rgbnBands _ hin
      simp only at huu
      rw [huu, set_leaf_rgbn] at hin
      simp [Prod.mk.injEq] at hin
      norm_num at hin

/-- Witness for C10: a fresh context, textured soil found and added, the
triangle identities 1 and 2 among four known identities. -/
theorem claim_C10_witness :
    ((1 ∈ [0, 1, 2, 3]) ∧ (2 ∈ [0, 1, 2, 3]))
      ∧ ((create_soil_plane ⟨0, []⟩ 1 1 true true 30 (3/10)).1.1 = 0
        ∧ 1 ∈ (create_soil_plane ⟨0, []⟩ 1 1 true true 30 (3/10)).2.prims
        ∧ 2 ∈ (create_soil_plane ⟨0, []⟩ 1 1 true true 30 (3/10)).2.prims
        ∧ (1 : ℕ) ≠ 0
        ∧ (2 : ℕ) ≠ 0
        ∧ List.lookup 1 (apply_species_labels [0, 1, 2, 3] 0 []).1 = some PLANT_PART_BEAN
        ∧ List.lookup 2 (apply_species_labels [0, 1, 2, 3] 0 []).1 = some PLANT_PART_BEAN
        ∧ (1, "reflectivity_NIR", (50 : ℚ)/100)
            ∈ (apply_radiative_properties [0, 1, 2, 3] 0 rgbnBands).1
        ∧ (1, "transmissivity_NIR", (40 : ℚ)/100)
            ∈ (apply_radiative_properties [0, 1, 2, 3] 0 rgbnBands).1
        ∧ (1, "reflectivity_NIR", (38 : ℚ)/100)
            ∉ (apply_radiative_properties [0, 1, 2, 3] 0 rgbnBands).1
        ∧ (1, "transmissivity_NIR", (0 : ℚ))
            ∉ (apply_radiative_properties [0, 1, 2, 3] 0 rgbnBands).1) :=
  ⟨⟨by decide, by decide⟩,
    claim_C10_textured_soil_mislabels ⟨0, []⟩ 1 1 30 [] [0, 1, 2, 3]
      (by decide) (by decide)⟩

/-- `calculate_nadir_camera_height` (camera.py lines 12-59): plot
diagonal, `np.radians` conversion, tangent of half the field of view,
and the safety-margin multiplication, over the reals. -/
noncomputable def calculate_nadir_camera_height (plot_width plot_length : ℝ)
    (fov_degrees : ℝ) (margin_factor : ℝ) : ℝ :=
  let diagonal := Real.sqrt (plot_width ^ 2 + plot_length ^ 2)
  let fov_rad := fov_degrees * (Real.pi / 180)
  let height := (diagonal / 2) / Real.tan (fov_rad / 2)
  height * margin_factor

/-- Claim C5: evaluation of the code at the cited input.  For
`plot_width = plot_length = 1`, `fov = 60°`, `margin = 1.1` the function
returns `1.1·(√2/2)/tan(30°) = 1.1·√6/2 ≈ 1.347 m`, which is strictly
below `1.4` — outside the `[1.4, 1.8]` range asserted by the claim, by
the function's own docstring (`1.60 m`), and by the repository's test
(`assert 1.4 < height < 1.8` in tests/test_geometry.py). -/
theorem claim_C5_height_eval :
    calculate_nadir_camera_height 1 1 60 (11/10) = (11/10) * (Real.sqrt 6 / 2)
      ∧ (13/10 : ℝ) < calculate_nadir_camera_height 1 1 60 (11/10)
      ∧ calculate_nadir_camera_height 1 1 60 (11/10) < 14/10 := by
  have hval : calculate_nadir_camera_height 1 1 60 (11/10)
      = (11/10) * (Real.sqrt 6 / 2) := by
    show Real.sqrt ((1:ℝ)^2 + 1^2) / 2 / Real.tan (60 * (Real.pi / 180) / 2) * (11/10)
        = (11/10) * (Real.sqrt 6 / 2)
    have harg : (60 : ℝ) * (Real.pi / 180) / 2 = Real.pi / 6 := by ring
    rw [harg, Real.tan_pi_div_six]
    have h2 : ((1:ℝ)^2 + 1^2) = 2 := by norm_num
    rw [h2]
    have h6 : Real.sqrt 6 = Real.sqrt 2 * Real.sqrt 3 := by
      rw [show (6:ℝ) = 2 * 3 by norm_num, Real.sqrt_mul (by norm_num)]
    have h3 : Real.sqrt 3 ≠ 0 := by positivity
    rw [h6]
    field_simp
    ring
  have hsq6 : Real.sqrt 6 ^ 2 = 6 := Real.sq_sqrt (by norm_num)
  have hnn : (0:ℝ) ≤ Real.sqrt 6 := Real.sqrt_nonneg 6
  have hlow : (12/5 : ℝ) < Real.sqrt 6 := by nlinarith
  have hhigh : Real.sqrt 6 < (28/11 : ℝ) := by nlinarith
  refine ⟨hval, ?_, ?_⟩
  · rw [hval]; nlinarith
  · rw [hval]; nlinarith

/-- The solar record returned by `calculate_solar_position`
(solar.py lines 60-66). -/
structure SolarInfo where
  direction : ℚ × ℚ × ℚ
  elevation_deg : ℚ
  azimuth_deg : ℚ
  zenith_deg : ℚ
  flux : ℚ

/-- The command-line flags of `main` that steer the post-scene stages
(generate_scene.py). -/
structure Args where
  camera : Bool
  camera_type_multispectral : Bool
  segmentation : Bool
  save : Bool
  no_interactive : Bool

/-- Outcomes of the external engine calls made by `main` after the scene
is built.  Each field models one fallible step at its interface
boundary: `.error e` is the Python call raising, `.ok v` its normal
return.  The orchestrator's own control flow — in particular where its
`try`/`except` blocks sit — is translated below. -/
structure StageEnv where
  labeling : Except String (ℕ × ℕ × ℕ)
  solar : Except String SolarInfo
  getFolder : Except String ℕ
  props : Except String ℕ
  addBands : Except String Unit
  sunSource : Except String Unit
  configureBands : Except String Unit
  cameraSetup : Except String Unit
  simulate : Except String Unit
  saveImages : Except String (Option String)
  saveSeg : Except String Bool
  exportScene : Except String Unit
  metadata : Except String Unit
  visualize : Except String Unit

/-- The body of the `try` block of the camera-imaging stage
(generate_scene.py lines 300-331): band setup, sun source, band
configuration, camera setup, the combined simulation call, then — when
saving — image writing and, if segmentation was requested and a primary
image was produced, segmentation-mask writing.  An exception anywhere
propagates out of the block (to the `except` handlers). -/
def radBlock (args : Args) (env : StageEnv) : Except String Unit :=
  match env.addBands with
  | .error e => .error e
  | .ok _ =>
  match env.sunSource with
  | .error e => .error e
  | .ok _ =>
  match env.configureBands with
  | .error e => .error e
  | .ok _ =>
  match env.cameraSetup with
  | .error e => .error e
  | .ok _ =>
  match env.simulate with
  | .error e => .error e
  | .ok _ =>
  if args.save then
    match env.saveImages with
    | .error e => .error e
    | .ok primary =>
      if args.segmentation ∧ primary.isSome then
        match env.saveSeg with
        | .error e => .error e
        | .ok _ => .ok ()
      else .ok ()
  else .ok ()

/-- The camera-imaging stage of `main` (generate_scene.py lines
291-337): nothing when `--camera` is off; otherwise
`apply_radiative_properties` runs first, *outside* the `try` block (line
297), so its exceptions propagate; the radiation-model block runs inside
`try`, and both `except HeliosError` and `except Exception` handlers
print and fall through, so any failure inside the block is caught and
the function continues. -/
def imagedStage (args : Args) (env : StageEnv) : Except String Unit :=
  if args.camera then
    match env.props with
    | .error e => .error e
    | .ok _ =>
      match radBlock args env with
      | .ok _ => .ok ()
      | .error _ => .ok ()
  else .ok ()

/-- The post-scene-build portion of `main` (generate_scene.py lines
269-377), from labeling to the interactive viewer: `.ok ()` is the run
reaching the final `COMPLETE` banner (DONE), `.error e` is an uncaught
exception aborting the process.  Only the camera-imaging block has a
`try`/`except`; labeling, the solar-position call, output-folder
creation, export, metadata and the viewer have none, so their failures
propagate. -/
def pipelineAfterScene (args : Args) (env : StageEnv) : Except String Unit :=
  match (if args.segmentation then
          match env.labeling with
          | .error e => .error e
          | .ok _ => .ok ()
        else .ok () : Except String Unit) with
  | .error e => .error e
  | .ok _ =>
  match env.solar with
  | .error e => .error e
  | .ok _ =>
  match (if args.save then
          match env.getFolder with
          | .error e => .error e
          | .ok _ => .ok ()
        else .ok () : Except String Unit) with
  | .error e => .error e
  | .ok _ =>
  match imagedStage args env with
  | .error e => .error e
  | .ok _ =>
  match (if args.save then
          match env.exportScene with
          | .error e => .error e
          | .ok _ =>
            match env.metadata with
            | .error e => .error e
            | .ok _ => .ok ()
        else .ok () : Except String Unit) with
  | .error e => .error e
  | .ok _ =>
  if !args.no_interactive then
    match env.visualize with
    | .error e => .error e
    | .ok _ => .ok ()
  else .ok ()

/-- An environment in which every external step succeeds. -/
def envAllOk : StageEnv where
  labeling := .ok (33, 32, 0)
  solar := .ok ⟨(0, 0, 1), 60, 180, 30, 1000⟩
  getFolder := .ok 1
  props := .ok 33
  addBands := .ok ()
  sunSource := .ok ()
  configureBands := .ok ()
  cameraSetup := .ok ()
  simulate := .ok ()
  saveImages := .ok (some "rgb.jpeg")
  saveSeg := .ok true
  exportScene := .ok ()
  metadata := .ok ()
  visualize := .ok ()

/-- Claim C3, counterexample.  With `--camera` on and every radiation
step healthy, a failure raised by `apply_radiative_properties` — which
`main` calls at line 297, before the `try` block that starts at line
300 — propagates out of the IMAGED stage and aborts the run instead of
being caught and logged. -/
theorem claim_C3_counterexample :
    imagedStage ⟨true, false, true, true, true⟩
        { envAllOk with props := .error "radiative property assignment failed" }
      = .error "radiative property assignment failed"
    ∧ pipelineAfterScene ⟨true, false, true, true, true⟩
        { envAllOk with props := .error "radiative property assignment failed" }
      = .error "radiative property assignment failed" :=
  ⟨rfl, rfl⟩

/-- Claim C3 (amended): failures raised inside the radiation-model block
of the IMAGED stage — band setup, the sun source, band configuration,
camera setup, the combined simulation call and image/segmentation
writing — are caught and logged, and the run proceeds to, and completes,
the subsequent requested stages; but the radiative-property assignment
runs before the `try` block, so only when it succeeds.  Here the radiation
block's outcomes are unconstrained, every other stage succeeds, and the
run reaches DONE. -/
theorem claim_C3_imaging_failures_caught (args : Args) (env : StageEnv) (n m : ℕ)
    (lc : ℕ × ℕ × ℕ) (si : SolarInfo)
    (hp : env.props = .ok n) (hl : env.labeling = .ok lc) (hs : env.solar = .ok si)
    (hf : env.getFolder = .ok m) (he : env.exportScene = .ok ())
    (hm : env.metadata = .ok ()) (hv : env.visualize = .ok ()) :
    imagedStage args env = .ok () ∧ pipelineAfterScene args env = .ok () := by
  have him : imagedStage args env = .ok () := by
    unfold imagedStage
    rw [hp]
    cases hcam : args.camera
    · rfl
    · cases hrb : radBlock args env <;> rfl
  refine ⟨him, ?_⟩
  unfold pipelineAfterScene
  rw [hs, him]
  rcases args with ⟨cam, mult, seg, save, noint⟩
  cases seg <;> cases save <;> cases noint <;> simp [hl, hf, he, hm, hv]

/-- Witness for the amended C3: camera, segmentation, save and the
interactive viewer all requested, the combined simulation call failing —
the stage is caught and the run reaches DONE. -/
theorem claim_C3_witness :
    ({ envAllOk with simulate := .error "simulation failed" }.props = .ok 33
        ∧ { envAllOk with simulate := .error "simulation failed" }.labeling
            = .ok (33, 32, 0))
      ∧ imagedStage ⟨true, false, true, true, false⟩
            { envAllOk with simulate := .error "simulation failed" } = .ok ()
      ∧ pipelineAfterScene ⟨true, false, true, true, false⟩
            { envAllOk with simulate := .error "simulation failed" } = .ok () :=
  ⟨⟨rfl, rfl⟩,
    claim_C3_imaging_failures_caught ⟨true, false, true, true, false⟩
      { envAllOk with simulate := .error "simulation failed" } 33 1 (33, 32, 0)
      ⟨(0, 0, 1), 60, 180, 30, 1000⟩ rfl rfl rfl rfl rfl rfl rfl⟩

/-- Claim C4, counterexample.  With neither imaging nor interactive
viewing requested (`--no-interactive`, no `--camera`, no `--save`), a
failing solar-ephemeris computation still aborts the run: `main` calls
`calculate_solar_position` at line 280 with no `try`/`except` anywhere
around it, so the exception propagates and the run never reaches DONE,
contrary to the claimed graceful degradation. -/
theorem claim_C4_counterexample :
    pipelineAfterScene ⟨false, false, false, false, true⟩
        { envAllOk with solar := .error "solar ephemeris failed" }
      = .error "solar ephemeris failed" := rfl

/-- Claim C4 (amended): a failure of the solar-ephemeris computation is
always fatal — whatever the camera, save, segmentation and interactive
flags, the exception propagates uncaught (provided the run reaches the
solar call, i.e. labeling did not already abort) and the run ends with
that error instead of reaching DONE. -/
theorem claim_C4_solar_failure_always_fatal (args : Args) (env : StageEnv)
    (e : String) (lc : ℕ × ℕ × ℕ)
    (hl : env.labeling = .ok lc) (hs : env.solar = .error e) :
    pipelineAfterScene args env = .error e := by
  unfold pipelineAfterScene
  rw [hs]
  cases hseg : args.segmentation <;> simp [hl]

/-- Witness for the amended C4: batch run without imaging, solar failure
aborts. -/
theorem claim_C4_witness :
    ({ envAllOk with solar := .error "solar ephemeris failed" }.labeling
        = .ok (33, 32, 0)
      ∧ { envAllOk with solar := .error "solar ephemeris failed" }.solar
          = .error "solar ephemeris failed")
      ∧ pipelineAfterScene ⟨false, false, false, false, true⟩
          { envAllOk with solar := .error "solar ephemeris failed" }
        = .error "solar ephemeris failed" :=
  ⟨⟨rfl, rfl⟩,
    claim_C4_solar_failure_always_fatal ⟨false, false, false, false, true⟩
      { envAllOk with solar := .error "solar ephemeris failed" }
      "solar ephemeris failed" (33, 32, 0) rfl rfl⟩
